import Mathlib

/-!
# Verification of the pod-doctor diagnostic engine

A shallow embedding of the diagnostic engine of the `pod-doctor` repository
(Go), together with theorems settling the frozen claims about it.

Modelling conventions:
* Go strings are Lean `String`s (byte indexing becomes character indexing,
  which agrees on the ASCII data handled here).
* Go `int`/`int32` values are Lean `Int`s.
* Go maps used only through point lookups (`map[string]bool`,
  `map[string][]string`) are modelled as functions with a default value,
  which is exactly Go's missing-key semantics.
* `map[string]string` detail maps are modelled as ordered key/value lists;
  the embedding always builds them in the same order the Go code does.
* Timestamps (`time.Time`, `time.Duration`) are not part of the embedding:
  fields holding them are dropped, and the one place a time is formatted
  into an issue detail keeps the already-formatted string.
* Fallible Go functions returning `(T, error)` become `Except String T`.
* Compiled regular expressions from the log-pattern table are modelled as
  executable matchers (`String → Bool`); every pattern in the table is a
  case-insensitive sequence of literal words separated by `\s*` (plus a few
  alternations), which the matcher combinators below implement directly.
-/

/-! ## String helpers (models of `strings.Contains`, `strings.TrimSpace`, …) -/

/-- Model of Go `strings.Contains s sub`. -/
def containsSubstr (s sub : String) : Bool :=
  decide (sub.data <:+: s.data)

/-- Model of Go `strings.TrimSpace line == ""`: the line is blank. -/
def isBlankLine (line : String) : Bool :=
  line.data.all (fun c => c.isWhitespace)

/-! ## `internal/domain`: issues, recommendations, diagnosis -/

def SeverityCritical : String := "critical"
def SeverityWarning : String := "warning"
def SeverityInfo : String := "info"

/-- `domain.Issue`. -/
structure Issue where
  severity : String
  category : String
  title : String
  description : String
  details : List (String × String)
  deriving DecidableEq, Repr

/-- `domain.Recommendation`. -/
structure Recommendation where
  priority : Int
  title : String
  description : String
  command : String := ""
  deriving DecidableEq, Repr

/-- `domain.EventInfo` (timestamps kept as preformatted strings). -/
structure EventInfo where
  type : String
  reason : String
  message : String
  count : Int
  lastSeen : String
  source : String
  deriving DecidableEq, Repr

/-- `domain.NodeHealth`. -/
structure NodeHealth where
  name : String
  ready : Bool
  memoryPressure : Bool
  diskPressure : Bool
  pidPressure : Bool
  networkUnavail : Bool
  deriving DecidableEq, Repr

/-- `domain.ContainerInfo` (timestamp fields dropped). -/
structure ContainerInfo where
  name : String
  image : String
  ready : Bool := false
  restartCount : Int := 0
  state : String := ""
  reason : String := ""
  message : String := ""
  exitCode : Int := 0
  deriving DecidableEq, Repr

/-- `domain.PodInfo` (the `Age` duration field is dropped). -/
structure PodInfo where
  name : String
  ns : String
  node : String
  phase : String
  ip : String
  restarts : Int
  containers : List ContainerInfo
  labels : List (String × String)
  deriving DecidableEq, Repr

/-- `domain.PodStatus` constants (`type PodStatus string`). -/
def StatusHealthy : String := "Healthy"
def StatusCrashLoop : String := "CrashLoopBackOff"
def StatusImagePull : String := "ImagePullBackOff"
def StatusPending : String := "Pending"
def StatusOOMKilled : String := "OOMKilled"
def StatusEvicted : String := "Evicted"
def StatusError : String := "Error"
def StatusTerminating : String := "Terminating"
def StatusUnknown : String := "Unknown"
def StatusNotReady : String := "NotReady"
def StatusCreateError : String := "CreateContainerError"
def StatusConfigError : String := "CreateContainerConfigError"

/-- `domain.Diagnosis` (the `DiagnosedAt` timestamp and the unused
`Logs`/`Resources` pointer fields are dropped). -/
structure Diagnosis where
  pod : PodInfo
  status : String
  issues : List Issue
  events : List EventInfo
  node : Option NodeHealth
  recommendations : List Recommendation
  deriving DecidableEq, Repr

/-- `domain.Diagnosis.IsHealthy`. -/
def Diagnosis.isHealthy (d : Diagnosis) : Bool :=
  (d.issues.length == 0) && (d.status == StatusHealthy)

/-! ## `corev1` pod model: exactly the fields the engine reads -/

/-- `corev1.ContainerStateWaiting`. -/
structure ContainerStateWaiting where
  reason : String
  message : String
  deriving DecidableEq, Repr

/-- `corev1.ContainerStateTerminated`. -/
structure ContainerStateTerminated where
  exitCode : Int
  reason : String
  message : String
  deriving DecidableEq, Repr

/-- `corev1.ContainerState`: `Running` carries no data the engine reads,
so it is modelled as a `Bool`. -/
structure ContainerState where
  running : Bool := false
  waiting : Option ContainerStateWaiting := none
  terminated : Option ContainerStateTerminated := none
  deriving DecidableEq, Repr

/-- `corev1.ContainerStatus`. -/
structure ContainerStatus where
  name : String
  image : String := ""
  ready : Bool := false
  restartCount : Int := 0
  state : ContainerState := {}
  lastTerminationState : ContainerState := {}
  deriving DecidableEq, Repr

/-- `corev1.Probe` (only the numeric knobs the Probe analyzer reads). -/
structure Probe where
  initialDelaySeconds : Int := 0
  periodSeconds : Int := 0
  timeoutSeconds : Int := 0
  failureThreshold : Int := 0
  deriving DecidableEq, Repr

/-- `corev1.ResourceList`, a map from resource name to quantity.  Quantities
are modelled as `Int`s in the canonical base unit of each resource
(bytes for memory, millicores for cpu), so `Quantity.Cmp` is `Int`
comparison. -/
def ResourceList := List (String × Int)
  deriving DecidableEq, Repr

/-- `ResourceList.Memory()`: the memory quantity, zero-valued if absent. -/
def ResourceList.memory (r : ResourceList) : Int :=
  match r.lookup "memory" with
  | some q => q
  | none => 0

/-- `ResourceList.Cpu()`: the cpu quantity, zero-valued if absent. -/
def ResourceList.cpu (r : ResourceList) : Int :=
  match r.lookup "cpu" with
  | some q => q
  | none => 0

/-- `corev1.ResourceRequirements`. -/
structure ResourceRequirements where
  limits : ResourceList := []
  requests : ResourceList := []
  deriving DecidableEq, Repr

/-- `corev1.Container` (spec side). -/
structure Container where
  name : String
  image : String := ""
  resources : ResourceRequirements := {}
  livenessProbe : Option Probe := none
  readinessProbe : Option Probe := none
  startupProbe : Option Probe := none
  deriving DecidableEq, Repr

/-- `corev1.PodCondition`. -/
structure PodCondition where
  type : String
  status : String
  reason : String := ""
  message : String := ""
  deriving DecidableEq, Repr

/-- `corev1.PodSpec`. -/
structure PodSpec where
  nodeName : String := ""
  containers : List Container := []
  initContainers : List Container := []
  deriving DecidableEq, Repr

/-- `corev1.PodStatus`. -/
structure PodStatus where
  phase : String := ""
  reason : String := ""
  message : String := ""
  podIP : String := ""
  conditions : List PodCondition := []
  containerStatuses : List ContainerStatus := []
  initContainerStatuses : List ContainerStatus := []
  deriving DecidableEq, Repr

/-- `corev1.Pod` (metadata flattened in; `DeletionTimestamp` reduced to
presence, which is all `detectPodStatus` reads). -/
structure Pod where
  name : String
  ns : String
  labels : List (String × String) := []
  deletionTimestamp : Option Unit := none
  spec : PodSpec := {}
  status : PodStatus := {}
  deriving DecidableEq, Repr

/-! ## Status Classifier: `detectPodStatus` -/

/-- The early-return signal produced by one iteration of the container loop
in `detectPodStatus`: the waiting-reason switch, then the OOM check on the
last termination state. -/
def containerStatusSignal (cs : ContainerStatus) : Option String :=
  let waitingSignal : Option String :=
    match cs.state.waiting with
    | some w =>
      if w.reason = "CrashLoopBackOff" then some StatusCrashLoop
      else if w.reason = "ImagePullBackOff" ∨ w.reason = "ErrImagePull" then
        some StatusImagePull
      else if w.reason = "CreateContainerError" then some StatusCreateError
      else if w.reason = "CreateContainerConfigError" then some StatusConfigError
      else none
    | none => none
  match waitingSignal with
  | some s => some s
  | none =>
    match cs.lastTerminationState.terminated with
    | some t => if t.reason = "OOMKilled" then some StatusOOMKilled else none
    | none => none

/-- First early-return signal over the container-status list, in list order. -/
def firstContainerSignal : List ContainerStatus → Option String
  | [] => none
  | cs :: rest =>
    match containerStatusSignal cs with
    | some s => some s
    | none => firstContainerSignal rest

/-- The phase dispatch at the bottom of `detectPodStatus`. -/
def phaseStatus (pod : Pod) : String :=
  if pod.status.phase = "Pending" then StatusPending
  else if pod.status.phase = "Failed" then
    if pod.status.reason = "Evicted" then StatusEvicted else StatusError
  else if pod.status.phase = "Running" then
    if pod.status.containerStatuses.all (fun cs => cs.ready) then StatusHealthy
    else StatusNotReady
  else if pod.status.phase = "Succeeded" then StatusHealthy
  else StatusUnknown

/-- `detectPodStatus` (src/unnamed/part_000, lines 90–140). -/
def detectPodStatus (pod : Pod) : String :=
  if pod.deletionTimestamp.isSome then StatusTerminating
  else
    match firstContainerSignal pod.status.containerStatuses with
    | some s => s
    | none => phaseStatus pod

/-! ## Signal Source boundary: the `kubernetes.Client` as an oracle -/

/-- The `kubernetes.Client` operations the engine calls, as a record of
oracles (§6 of the spec: `getPod`, `getPodLogs`, `getPodEvents`,
`getNodeHealth`). -/
structure Client where
  getPod : String → String → Except String Pod
  getPodLogs : String → String → String → Int → Bool → Except String String
  getPodEvents : String → String → Except String (List EventInfo)
  getNodeHealth : String → Except String NodeHealth

/-! ## Log analyzer (`internal/analyzer/logs.go`) -/

/-- `truncateLine` (logs.go, lines 125–130). -/
def truncateLine (line : String) (maxLen : Nat) : String :=
  if line.length ≤ maxLen then line
  else String.mk (line.data.take (maxLen - 3)) ++ "..."

/-- Go regexp `\s` character class: `[\t\n\f\r ]`. -/
def goWhitespace (c : Char) : Bool :=
  c = ' ' || c = '\t' || c = '\n' || c = '\x0c' || c = '\r'

/-- Match a sequence of literal words separated by `\s*`, anchored at the
start of `l`.  Maximal-munch on the gaps is equivalent to the regex because
every word in the table starts with a non-whitespace character. -/
def matchWordsAt : List (List Char) → List Char → Bool
  | [], _ => true
  | w :: ws, l =>
    w.isPrefixOf l && matchWordsAt ws ((l.drop w.length).dropWhile goWhitespace)

/-- Match the word sequence at any position of `l` (Go `MatchString` is an
unanchored search). -/
def matchWordsFrom (ws : List (List Char)) : List Char → Bool
  | [] => matchWordsAt ws []
  | c :: t => matchWordsAt ws (c :: t) || matchWordsFrom ws t

/-- Lower-cased character data of a string (`(?i)` handling). -/
def lowerData (s : String) : List Char := s.data.map Char.toLower

/-- Case-insensitive unanchored match of words separated by `\s*`. -/
def ciMatchSeq (words : List String) (line : String) : Bool :=
  matchWordsFrom (words.map lowerData) (lowerData line)

/-- `(?i)panic:` -/
def matchPanic (line : String) : Bool := ciMatchSeq ["panic:"] line

/-- `(?i)fatal\s*(error)?:` -/
def matchFatal (line : String) : Bool :=
  ciMatchSeq ["fatal", "error:"] line || ciMatchSeq ["fatal", ":"] line

/-- `(?i)out\s*of\s*memory` -/
def matchOutOfMemory (line : String) : Bool :=
  ciMatchSeq ["out", "of", "memory"] line

/-- `(?i)killed` -/
def matchKilled (line : String) : Bool := ciMatchSeq ["killed"] line

/-- `(?i)connection\s*refused` -/
def matchConnectionRefused (line : String) : Bool :=
  ciMatchSeq ["connection", "refused"] line

/-- `(?i)ECONNREFUSED` -/
def matchEconnrefused (line : String) : Bool :=
  ciMatchSeq ["ECONNREFUSED"] line

/-- `(?i)permission\s*denied` -/
def matchPermissionDenied (line : String) : Bool :=
  ciMatchSeq ["permission", "denied"] line

/-- `(?i)access\s*denied` -/
def matchAccessDenied (line : String) : Bool :=
  ciMatchSeq ["access", "denied"] line

/-- `(?i)no\s*such\s*file` -/
def matchNoSuchFile (line : String) : Bool :=
  ciMatchSeq ["no", "such", "file"] line

/-- `(?i)timeout|timed?\s*out` -/
def matchTimeout (line : String) : Bool :=
  ciMatchSeq ["timeout"] line || ciMatchSeq ["timed", "out"] line ||
    ciMatchSeq ["time", "out"] line

/-- `(?i)deadline\s*exceeded` -/
def matchDeadlineExceeded (line : String) : Bool :=
  ciMatchSeq ["deadline", "exceeded"] line

/-- `(?i)certificate\s*(verify|validation)\s*failed` -/
def matchCertificate (line : String) : Bool :=
  ciMatchSeq ["certificate", "verify", "failed"] line ||
    ciMatchSeq ["certificate", "validation", "failed"] line

/-- `(?i)authentication\s*failed` -/
def matchAuthFailed (line : String) : Bool :=
  ciMatchSeq ["authentication", "failed"] line

/-- `(?i)unauthorized` -/
def matchUnauthorized (line : String) : Bool :=
  ciMatchSeq ["unauthorized"] line

/-- `(?i)segmentation\s*fault` -/
def matchSegfault (line : String) : Bool :=
  ciMatchSeq ["segmentation", "fault"] line

/-- `(?i)stack\s*overflow` -/
def matchStackOverflow (line : String) : Bool :=
  ciMatchSeq ["stack", "overflow"] line

/-- `(?i)null\s*pointer` -/
def matchNullPointer (line : String) : Bool :=
  ciMatchSeq ["null", "pointer"] line

/-- One entry of the log-pattern table (`errorPattern`, the compiled regex
replaced by its matcher). -/
structure ErrorPattern where
  matchesLine : String → Bool
  title : String
  description : String
  severity : String

/-- Table entry five: `(?i)connection\\s*refused`. -/
def connPattern : ErrorPattern :=
  ⟨matchConnectionRefused, "Connection refused", "Cannot connect to a service", SeverityWarning⟩

/-- Table entry six, sharing entry five's title: `(?i)ECONNREFUSED`. -/
def econnPattern : ErrorPattern :=
  ⟨matchEconnrefused, "Connection refused", "TCP connection refused", SeverityWarning⟩

/-- The fixed pattern table built by `NewLogAnalyzer` (logs.go, lines
27–49).  Note entries five and six share the title "Connection refused". -/
def logPatterns : List ErrorPattern :=
  [⟨matchPanic, "Panic detected", "Application panicked", SeverityCritical⟩,
   ⟨matchFatal, "Fatal error", "Fatal error occurred", SeverityCritical⟩,
   ⟨matchOutOfMemory, "Out of memory", "Application ran out of memory", SeverityCritical⟩,
   ⟨matchKilled, "Process killed", "Process was killed", SeverityWarning⟩,
   connPattern,
   econnPattern,
   ⟨matchPermissionDenied, "Permission denied", "Insufficient permissions", SeverityWarning⟩,
   ⟨matchAccessDenied, "Access denied", "Access was denied", SeverityWarning⟩,
   ⟨matchNoSuchFile, "File not found", "Required file not found", SeverityWarning⟩,
   ⟨matchTimeout, "Timeout", "Operation timed out", SeverityWarning⟩,
   ⟨matchDeadlineExceeded, "Deadline exceeded", "Operation deadline was exceeded", SeverityWarning⟩,
   ⟨matchCertificate, "Certificate error", "TLS certificate validation failed", SeverityWarning⟩,
   ⟨matchAuthFailed, "Auth failed", "Authentication failed", SeverityWarning⟩,
   ⟨matchUnauthorized, "Unauthorized", "Unauthorized access attempt", SeverityWarning⟩,
   ⟨matchSegfault, "Segfault", "Segmentation fault occurred", SeverityCritical⟩,
   ⟨matchStackOverflow, "Stack overflow", "Stack overflow error", SeverityCritical⟩,
   ⟨matchNullPointer, "Null pointer", "Null pointer exception", SeverityCritical⟩]

/-- One append to the `matchedPatterns` map (Go map modelled as a function
with default `[]`; a key is present iff its list is nonempty, since every
assignment appends an element). -/
def updateMatches (m : String → List String) (t s : String) : String → List String :=
  fun u => if u = t then m u ++ [s] else m u

/-- The inner pattern loop of `analyzeContainerLogs` for one line. -/
def collectLine (patterns : List ErrorPattern) (line : String)
    (m : String → List String) : String → List String :=
  patterns.foldl
    (fun m p =>
      if p.matchesLine line then updateMatches m p.title (truncateLine line 200) else m)
    m

/-- The line loop of `analyzeContainerLogs` building `matchedPatterns`. -/
def collectMatches (patterns : List ErrorPattern) (lines : List String) :
    String → List String :=
  lines.foldl
    (fun m line => if isBlankLine line then m else collectLine patterns line m)
    (fun _ => [])

/-- Character-level worker for `strings.Split(s, "\\n")`: accumulates the
current line (reversed) and cuts at every newline. -/
def splitNewlinesAux : List Char → List Char → List String
  | [], acc => [String.mk acc.reverse]
  | c :: cs, acc =>
    if c = '\n' then String.mk acc.reverse :: splitNewlinesAux cs []
    else splitNewlinesAux cs (c :: acc)

/-- Model of Go `strings.Split(s, "\\n")` (total, kernel-computable). -/
def splitLines (s : String) : List String :=
  splitNewlinesAux s.data []

/-- The issue title `fmt.Sprintf("[%s] %s", containerName, pattern.Title)`. -/
def logIssueTitle (containerName title : String) : String :=
  "[" ++ containerName ++ "] " ++ title

/-- The `Details` map of a log issue, in the order the Go code builds it. -/
def logIssueDetails (containerName : String) (ms : List String) :
    List (String × String) :=
  let base := [("container", containerName),
               ("match_count", toString ms.length),
               ("sample_match", ms.headD "")]
  if ms.length > 1 then
    base ++ [("additional_matches", toString (ms.length - 1) ++ " more occurrences")]
  else base

/-- The body of the emission loop of `analyzeContainerLogs`: the issue for
one pattern-table entry, when its title has matches recorded. -/
def logIssueEmit (containerName : String) (mp : String → List String)
    (p : ErrorPattern) : Option Issue :=
  match mp p.title with
  | [] => none
  | m :: rest =>
    some { severity := p.severity
           category := "logs"
           title := logIssueTitle containerName p.title
           description := p.description
           details := logIssueDetails containerName (m :: rest) }

/-- The emission loop of `analyzeContainerLogs`: one issue per pattern-table
entry whose title has matches recorded. -/
def logIssues (containerName : String) (mp : String → List String) : List Issue :=
  logPatterns.filterMap (logIssueEmit containerName mp)

/-- The pure part of `analyzeContainerLogs` once the log text is in hand. -/
def analyzeContainerLogsPure (containerName logs : String) : List Issue :=
  if logs = "" then []
  else logIssues containerName (collectMatches logPatterns (splitLines logs))

/-- `LogAnalyzer.analyzeContainerLogs` (logs.go, lines 73–122). -/
def analyzeContainerLogs (client : Client) (ns podName containerName : String)
    (previous : Bool) : Except String (List Issue) :=
  match client.getPodLogs ns podName containerName 100 previous with
  | .error e => .error e
  | .ok logs => .ok (analyzeContainerLogsPure containerName logs)

/-- The loop body of `LogAnalyzer.Analyze` for one container: current logs,
falling back once to previous-instance logs with the secondary error
discarded. -/
def logAnalyzeContainer (client : Client) (ns podName : String)
    (c : Container) : List Issue :=
  match analyzeContainerLogs client ns podName c.name false with
  | .ok issues => issues
  | .error _ =>
    match analyzeContainerLogs client ns podName c.name true with
    | .ok issues => issues
    | .error _ => []

/-- `LogAnalyzer.Analyze` (logs.go, lines 57–70). -/
def logAnalyzerAnalyze (client : Client) (pod : Pod) : Except String (List Issue) :=
  .ok ((pod.spec.containers.map (logAnalyzeContainer client pod.ns pod.name)).flatten)

/-! ## Status analyzer (`internal/analyzer/node.go`, lines 121–394) -/

/-- `StatusAnalyzer.analyzeContainerStatus`: waiting-state switch, then the
last-termination checks, then the current-termination check. -/
def analyzeContainerStatusIssues (cs : ContainerStatus) : List Issue :=
  let waitingIssues :=
    match cs.state.waiting with
    | some w =>
      if w.reason = "CrashLoopBackOff" then
        [{ severity := SeverityCritical
           category := "container"
           title := "Container " ++ cs.name ++ " in CrashLoopBackOff"
           description := "Container is repeatedly crashing after starting"
           details := [("container", cs.name), ("reason", w.reason),
                       ("message", w.message),
                       ("restart_count", toString cs.restartCount)] }]
      else if w.reason = "ImagePullBackOff" ∨ w.reason = "ErrImagePull" then
        [{ severity := SeverityCritical
           category := "container"
           title := "Cannot pull image for " ++ cs.name
           description := w.message
           details := [("container", cs.name), ("reason", w.reason),
                       ("image", cs.image)] }]
      else if w.reason = "CreateContainerConfigError" then
        [{ severity := SeverityCritical
           category := "container"
           title := "Config error for " ++ cs.name
           description := w.message
           details := [("container", cs.name), ("reason", w.reason)] }]
      else if w.reason = "CreateContainerError" then
        [{ severity := SeverityCritical
           category := "container"
           title := "Cannot create container " ++ cs.name
           description := w.message
           details := [("container", cs.name), ("reason", w.reason)] }]
      else if w.reason ≠ "" ∧ w.reason ≠ "ContainerCreating" ∧
          w.reason ≠ "PodInitializing" then
        [{ severity := SeverityWarning
           category := "container"
           title := "Container " ++ cs.name ++ " waiting: " ++ w.reason
           description := w.message
           details := [("container", cs.name), ("reason", w.reason)] }]
      else []
    | none => []
  let lastTermIssues :=
    match cs.lastTerminationState.terminated with
    | some t =>
      if t.reason = "OOMKilled" then
        [{ severity := SeverityCritical
           category := "resources"
           title := "Container " ++ cs.name ++ " was OOMKilled"
           description := "Container exceeded memory limit and was killed"
           details := [("container", cs.name), ("reason", "OOMKilled"),
                       ("exit_code", toString t.exitCode)] }]
      else if t.exitCode ≠ 0 then
        [{ severity := SeverityWarning
           category := "container"
           title := "Container " ++ cs.name ++ " exited with code " ++ toString t.exitCode
           description := t.message
           details := [("container", cs.name), ("reason", t.reason),
                       ("exit_code", toString t.exitCode)] }]
      else []
    | none => []
  let termIssues :=
    match cs.state.terminated with
    | some t =>
      if t.exitCode ≠ 0 then
        [{ severity := SeverityCritical
           category := "container"
           title := "Container " ++ cs.name ++ " terminated with exit code " ++ toString t.exitCode
           description := t.message
           details := [("container", cs.name), ("reason", t.reason),
                       ("exit_code", toString t.exitCode)] }]
      else []
    | none => []
  waitingIssues ++ lastTermIssues ++ termIssues

/-- `StatusAnalyzer.analyzeInitContainerStatus`. -/
def analyzeInitContainerStatusIssues (cs : ContainerStatus) : List Issue :=
  (match cs.state.waiting with
   | some w =>
     if w.reason ≠ "" then
       [{ severity := SeverityWarning
          category := "container"
          title := "Init container " ++ cs.name ++ " waiting: " ++ w.reason
          description := w.message
          details := [("container", cs.name), ("type", "init"),
                      ("reason", w.reason)] }]
     else []
   | none => []) ++
  (match cs.state.terminated with
   | some t =>
     if t.exitCode ≠ 0 then
       [{ severity := SeverityCritical
          category := "container"
          title := "Init container " ++ cs.name ++ " failed"
          description := "Exit code: " ++ toString t.exitCode ++ " - " ++ t.message
          details := [("container", cs.name), ("type", "init"),
                      ("exit_code", toString t.exitCode)] }]
     else []
   | none => [])

/-- The per-condition part of `StatusAnalyzer.analyzePodConditions`. -/
def podConditionIssues (pod : Pod) (cond : PodCondition) : List Issue :=
  if cond.type = "PodScheduled" then
    if cond.status = "False" then
      [{ severity := SeverityCritical
         category := "scheduling"
         title := "Pod cannot be scheduled"
         description := cond.message
         details := [("reason", cond.reason)] }]
    else []
  else if cond.type = "Ready" then
    if cond.status = "False" ∧ pod.status.phase = "Running" then
      [{ severity := SeverityWarning
         category := "container"
         title := "Pod is not ready"
         description := cond.message
         details := [("reason", cond.reason)] }]
    else []
  else if cond.type = "ContainersReady" then
    if cond.status = "False" ∧ pod.status.phase = "Running" then
      [{ severity := SeverityWarning
         category := "container"
         title := "Containers not ready"
         description := cond.message
         details := [("reason", cond.reason)] }]
    else []
  else []

/-- `StatusAnalyzer.analyzePodConditions`. -/
def analyzePodConditionsIssues (pod : Pod) : List Issue :=
  (pod.status.conditions.map (podConditionIssues pod)).flatten ++
  (if pod.status.phase = "Failed" ∧ pod.status.reason = "Evicted" then
    [{ severity := SeverityCritical
       category := "resources"
       title := "Pod was evicted"
       description := pod.status.message
       details := [("reason", "Evicted")] }]
  else [])

/-- `StatusAnalyzer.Analyze` (node.go, lines 135–168): container statuses,
init container statuses, pod conditions, then the restart-count sweep. -/
def statusAnalyzerAnalyze (_client : Client) (pod : Pod) : Except String (List Issue) :=
  .ok ((pod.status.containerStatuses.map analyzeContainerStatusIssues).flatten ++
    (pod.status.initContainerStatuses.map analyzeInitContainerStatusIssues).flatten ++
    analyzePodConditionsIssues pod ++
    pod.status.containerStatuses.filterMap (fun cs =>
      if cs.restartCount > 5 then
        some { severity := SeverityWarning
               category := "container"
               title := "High restart count for " ++ cs.name
               description := "Container has restarted " ++ toString cs.restartCount ++ " times"
               details := [("container", cs.name),
                           ("restart_count", toString cs.restartCount)] }
      else none))

/-! ## Event analyzer (`src/unnamed/part_001`) -/

/-- `formatCount`. -/
def formatCount (count : Int) : String :=
  if count ≤ 1 then "1" else toString count ++ " times"

/-- `EventAnalyzer.analyzeWarningEvent`. -/
def analyzeWarningEvent (event : EventInfo) : Option Issue :=
  let severity :=
    if event.reason = "Failed" ∨ event.reason = "FailedScheduling" ∨
        event.reason = "FailedMount" ∨ event.reason = "FailedAttachVolume" then
      SeverityCritical
    else if event.reason = "Unhealthy" ∨ event.reason = "ProbeWarning" then
      SeverityWarning
    else if event.reason = "BackOff" then SeverityCritical
    else SeverityWarning
  let category :=
    if containsSubstr event.reason "Scheduling" then "scheduling"
    else if containsSubstr event.reason "Volume" ∨ containsSubstr event.reason "Mount" then
      "storage"
    else if containsSubstr event.reason "Probe" ∨ event.reason = "Unhealthy" then
      "health"
    else if containsSubstr event.reason "Pull" then "container"
    else if containsSubstr event.reason "OOM" then "resources"
    else "events"
  if event.reason = "Scheduled" ∨ event.reason = "Pulled" ∨
      event.reason = "Created" ∨ event.reason = "Started" then
    none
  else
    some { severity := severity
           category := category
           title := event.reason
           description := event.message
           details := [("count", formatCount event.count),
                       ("source", event.source),
                       ("last_seen", event.lastSeen)] }

/-- `EventAnalyzer.Analyze`. -/
def eventAnalyzerAnalyze (client : Client) (pod : Pod) : Except String (List Issue) :=
  match client.getPodEvents pod.ns pod.name with
  | .error e => .error e
  | .ok events =>
    .ok (events.filterMap (fun event =>
      if event.type = "Warning" then analyzeWarningEvent event else none))

/-! ## Node analyzer (`internal/analyzer/node.go`, lines 12–109) -/

/-- The issue list built by `NodeAnalyzer.Analyze` from a fetched
`NodeHealth`. -/
def nodeHealthIssues (nh : NodeHealth) : List Issue :=
  (if !nh.ready then
    [{ severity := SeverityCritical
       category := "node"
       title := "Node " ++ nh.name ++ " is not ready"
       description := "The node where this pod is running is not in Ready state"
       details := [("node", nh.name)] }]
  else []) ++
  (if nh.memoryPressure then
    [{ severity := SeverityWarning
       category := "node"
       title := "Node " ++ nh.name ++ " has memory pressure"
       description := "The node is experiencing memory pressure, which may cause pod evictions"
       details := [("node", nh.name), ("condition", "MemoryPressure")] }]
  else []) ++
  (if nh.diskPressure then
    [{ severity := SeverityWarning
       category := "node"
       title := "Node " ++ nh.name ++ " has disk pressure"
       description := "The node is running low on disk space"
       details := [("node", nh.name), ("condition", "DiskPressure")] }]
  else []) ++
  (if nh.pidPressure then
    [{ severity := SeverityWarning
       category := "node"
       title := "Node " ++ nh.name ++ " has PID pressure"
       description := "The node is running low on process IDs"
       details := [("node", nh.name), ("condition", "PIDPressure")] }]
  else []) ++
  (if nh.networkUnavail then
    [{ severity := SeverityCritical
       category := "node"
       title := "Node " ++ nh.name ++ " network unavailable"
       description := "The node's network is not properly configured"
       details := [("node", nh.name), ("condition", "NetworkUnavailable")] }]
  else [])

/-- `NodeAnalyzer.Analyze`. -/
def nodeAnalyzerAnalyze (client : Client) (pod : Pod) : Except String (List Issue) :=
  if pod.spec.nodeName = "" then .ok []
  else
    match client.getNodeHealth pod.spec.nodeName with
    | .error e => .error e
    | .ok nh => .ok (nodeHealthIssues nh)

/-! ## Resource analyzer (`internal/analyzer/node.go`, lines 694–884) -/

/-- `resource.MustParse("64Mi")` in bytes. -/
def minMemoryBytes : Int := 67108864

/-- `resource.MustParse("50m")` in millicores. -/
def minCPUMillicores : Int := 50

/-- `ResourceAnalyzer.isGuaranteedQoS`. -/
def isGuaranteedQoS (resources : ResourceRequirements) : Bool :=
  let cpuLimit := resources.limits.cpu
  let memLimit := resources.limits.memory
  if cpuLimit = 0 ∨ memLimit = 0 then false
  else cpuLimit = resources.requests.cpu ∧ memLimit = resources.requests.memory

/-- `ResourceAnalyzer.isBurstableQoS`. -/
def isBurstableQoS (resources : ResourceRequirements) : Bool :=
  (resources.requests.length > 0 ∨ resources.limits.length > 0) ∧
    !isGuaranteedQoS resources

/-- `ResourceAnalyzer.analyzeContainer` (node.go, lines 723–857).  Quantity
strings in details are rendered from the canonical `Int` model. -/
def analyzeContainerResources (container : Container) : List Issue :=
  let resources := container.resources
  let noLimits :=
    if resources.limits.length = 0 then
      [{ severity := SeverityWarning
         category := "resources"
         title := "No resource limits for " ++ container.name
         description := "Container has no resource limits set, which may lead to resource contention"
         details := [("container", container.name),
                     ("recommendation", "Set CPU and memory limits to prevent resource starvation")] }]
    else []
  let noRequests :=
    if resources.requests.length = 0 then
      [{ severity := SeverityInfo
         category := "resources"
         title := "No resource requests for " ++ container.name
         description := "Container has no resource requests set, which may affect scheduling"
         details := [("container", container.name),
                     ("recommendation", "Set resource requests for better scheduling decisions")] }]
    else []
  let memLimit := resources.limits.memory
  let memRequest := resources.requests.memory
  let memIssues :=
    if memLimit ≠ 0 then
      (if memLimit < minMemoryBytes then
        [{ severity := SeverityWarning
           category := "resources"
           title := "Low memory limit for " ++ container.name
           description := "Memory limit is very low and may cause OOMKill"
           details := [("container", container.name),
                       ("memory_limit", toString memLimit),
                       ("minimum_recommended", "64Mi")] }]
      else []) ++
      (if memRequest ≠ 0 ∧ memRequest > memLimit then
        [{ severity := SeverityWarning
           category := "resources"
           title := "Memory request > limit for " ++ container.name
           description := "Memory request exceeds limit, request will be set to limit"
           details := [("container", container.name),
                       ("memory_request", toString memRequest),
                       ("memory_limit", toString memLimit)] }]
      else [])
    else []
  let cpuLimit := resources.limits.cpu
  let cpuRequest := resources.requests.cpu
  let cpuIssues :=
    if cpuLimit ≠ 0 then
      (if cpuLimit < minCPUMillicores then
        [{ severity := SeverityWarning
           category := "resources"
           title := "Very low CPU limit for " ++ container.name
           description := "CPU limit is very low and may cause severe throttling"
           details := [("container", container.name),
                       ("cpu_limit", toString cpuLimit),
                       ("minimum_recommended", "50m")] }]
      else []) ++
      (if cpuRequest ≠ 0 ∧ cpuRequest > cpuLimit then
        [{ severity := SeverityWarning
           category := "resources"
           title := "CPU request > limit for " ++ container.name
           description := "CPU request exceeds limit, request will be set to limit"
           details := [("container", container.name),
                       ("cpu_request", toString cpuRequest),
                       ("cpu_limit", toString cpuLimit)] }]
      else [])
    else []
  let qosIssues :=
    if isGuaranteedQoS resources then []
    else if isBurstableQoS resources then []
    else
      [{ severity := SeverityWarning
         category := "resources"
         title := "BestEffort QoS for " ++ container.name
         description := "Container has BestEffort QoS class and will be first to be evicted under memory pressure"
         details := [("container", container.name), ("qos_class", "BestEffort")] }]
  noLimits ++ noRequests ++ memIssues ++ cpuIssues ++ qosIssues

/-- `ResourceAnalyzer.Analyze`. -/
def resourceAnalyzerAnalyze (_client : Client) (pod : Pod) : Except String (List Issue) :=
  .ok ((pod.spec.containers.map analyzeContainerResources).flatten ++
    (pod.spec.initContainers.map analyzeContainerResources).flatten)

/-! ## Probe analyzer (`internal/analyzer/node.go`, lines 407–681) -/

/-- `ProbeAnalyzer.analyzeLivenessProbe`. -/
def analyzeLivenessProbeIssues (containerName : String) (probe : Probe) : List Issue :=
  (if probe.periodSeconds > 0 ∧ probe.periodSeconds < 5 then
    [{ severity := SeverityWarning
       category := "probes"
       title := "Aggressive liveness probe for " ++ containerName
       description := "Liveness probe runs very frequently, may cause unnecessary restarts"
       details := [("container", containerName),
                   ("period", toString probe.periodSeconds ++ "s"),
                   ("recommendation", "Consider increasing periodSeconds to at least 10s")] }]
  else []) ++
  (if probe.failureThreshold > 0 ∧ probe.failureThreshold < 3 then
    [{ severity := SeverityWarning
       category := "probes"
       title := "Low liveness failureThreshold for " ++ containerName
       description := "Container will restart after very few probe failures"
       details := [("container", containerName),
                   ("failure_threshold", toString probe.failureThreshold),
                   ("recommendation", "Consider increasing failureThreshold to at least 3")] }]
  else []) ++
  (if probe.timeoutSeconds > 0 ∧ probe.timeoutSeconds < 2 then
    [{ severity := SeverityInfo
       category := "probes"
       title := "Short liveness timeout for " ++ containerName
       description := "Liveness probe timeout is very short"
       details := [("container", containerName),
                   ("timeout", toString probe.timeoutSeconds ++ "s"),
                   ("recommendation", "Consider increasing timeoutSeconds if probe target may be slow")] }]
  else [])

/-- `ProbeAnalyzer.analyzeReadinessProbe`. -/
def analyzeReadinessProbeIssues (containerName : String) (probe : Probe) : List Issue :=
  if probe.initialDelaySeconds > 60 then
    [{ severity := SeverityInfo
       category := "probes"
       title := "Long readiness initialDelaySeconds for " ++ containerName
       description := "Readiness probe starts very late, pod won't receive traffic for a while"
       details := [("container", containerName),
                   ("initial_delay", toString probe.initialDelaySeconds ++ "s")] }]
  else []

/-- `ProbeAnalyzer.analyzeStartupProbe`. -/
def analyzeStartupProbeIssues (containerName : String) (probe : Probe) : List Issue :=
  let maxStartupTime := probe.failureThreshold * probe.periodSeconds
  if maxStartupTime > 0 ∧ maxStartupTime < 30 then
    [{ severity := SeverityWarning
       category := "probes"
       title := "Short startup window for " ++ containerName
       description := "Startup probe allows very little time for container to start"
       details := [("container", containerName),
                   ("max_startup_time", toString maxStartupTime ++ "s"),
                   ("recommendation", "Increase failureThreshold or periodSeconds")] }]
  else []

/-- `ProbeAnalyzer.analyzeContainerProbes`. -/
def analyzeContainerProbesIssues (container : Container) : List Issue :=
  let noProbes :=
    if container.livenessProbe.isNone ∧ container.readinessProbe.isNone then
      [{ severity := SeverityInfo
         category := "probes"
         title := "No health probes for " ++ container.name
         description := "Container has no liveness or readiness probes configured"
         details := [("container", container.name),
                     ("recommendation", "Consider adding probes for better health monitoring")] }]
    else []
  let livenessIssues :=
    match container.livenessProbe with
    | some probe => analyzeLivenessProbeIssues container.name probe
    | none => []
  let readinessIssues :=
    match container.readinessProbe with
    | some probe => analyzeReadinessProbeIssues container.name probe
    | none => []
  let startupIssues :=
    match container.startupProbe with
    | some probe => analyzeStartupProbeIssues container.name probe
    | none => []
  let earlyLiveness :=
    match container.livenessProbe, container.startupProbe with
    | some liveness, none =>
      if liveness.initialDelaySeconds < 10 then
        [{ severity := SeverityWarning
           category := "probes"
           title := "Low liveness initialDelaySeconds for " ++ container.name
           description := "Liveness probe starts very early, may kill slow-starting containers"
           details := [("container", container.name),
                       ("initial_delay", toString liveness.initialDelaySeconds ++ "s"),
                       ("recommendation", "Consider using a startupProbe or increasing initialDelaySeconds")] }]
      else []
    | _, _ => []
  noProbes ++ livenessIssues ++ readinessIssues ++ startupIssues ++ earlyLiveness

/-- `ProbeAnalyzer.analyzeProbeEvents`. -/
def analyzeProbeEventsIssues (events : List EventInfo) : List Issue :=
  events.filterMap (fun event =>
    if event.type ≠ "Warning" then none
    else if event.reason = "Unhealthy" then
      let pt :=
        if containsSubstr event.message "Liveness" then ("Liveness", SeverityCritical)
        else if containsSubstr event.message "Readiness" then ("Readiness", SeverityWarning)
        else if containsSubstr event.message "Startup" then ("Startup", SeverityCritical)
        else ("Unknown", SeverityWarning)
      some { severity := pt.2
             category := "probes"
             title := pt.1 ++ " probe failed"
             description := event.message
             details := [("probe_type", pt.1),
                         ("count", toString event.count),
                         ("last_seen", event.lastSeen)] }
    else none)

/-- `ProbeAnalyzer.analyzeContainerStatus`. -/
def probeContainerStatusIssues (cs : ContainerStatus) : List Issue :=
  (if !cs.ready ∧ cs.state.running then
    [{ severity := SeverityWarning
       category := "probes"
       title := "Container " ++ cs.name ++ " running but not ready"
       description := "Container is running but readiness probe is failing"
       details := [("container", cs.name), ("state", "running"),
                   ("ready", "false")] }]
  else []) ++
  (match cs.lastTerminationState.terminated with
   | some t =>
     if cs.restartCount > 0 ∧ t.exitCode = 137 then
       [{ severity := SeverityWarning
          category := "probes"
          title := "Container " ++ cs.name ++ " killed (exit 137)"
          description := "Container was killed with SIGKILL, possibly by liveness probe or OOM"
          details := [("container", cs.name), ("exit_code", "137"),
                      ("restart_count", toString cs.restartCount),
                      ("reason", t.reason)] }]
     else []
   | none => [])

/-- `ProbeAnalyzer.Analyze` (node.go, lines 421–441). -/
def probeAnalyzerAnalyze (client : Client) (pod : Pod) : Except String (List Issue) :=
  let cfgIssues := (pod.spec.containers.map analyzeContainerProbesIssues).flatten
  let eventIssues :=
    match client.getPodEvents pod.ns pod.name with
    | .ok events => analyzeProbeEventsIssues events
    | .error _ => []
  let statusIssues := (pod.status.containerStatuses.map probeContainerStatusIssues).flatten
  .ok (cfgIssues ++ eventIssues ++ statusIssues)

/-! ## `kubernetes.ExtractPodInfo` (client.go, lines 177–230) -/

/-- The per-container extraction step. -/
def extractContainerInfo (statuses : List ContainerStatus) (container : Container) :
    ContainerInfo :=
  let base : ContainerInfo := { name := container.name, image := container.image }
  match statuses.find? (fun cs => cs.name = container.name) with
  | none => base
  | some status =>
    let base := { base with ready := status.ready, restartCount := status.restartCount }
    if status.state.running then { base with state := "running" }
    else
      match status.state.waiting with
      | some w => { base with state := "waiting", reason := w.reason, message := w.message }
      | none =>
        match status.state.terminated with
        | some t =>
          { base with state := "terminated", reason := t.reason, message := t.message,
                      exitCode := t.exitCode }
        | none => base

/-- `ExtractPodInfo` (the `Age` computation is dropped with the timestamps). -/
def extractPodInfo (pod : Pod) : PodInfo :=
  { name := pod.name
    ns := pod.ns
    node := pod.spec.nodeName
    phase := pod.status.phase
    ip := pod.status.podIP
    labels := pod.labels
    restarts := (pod.status.containerStatuses.map (fun cs => cs.restartCount)).sum
    containers := pod.spec.containers.map (extractContainerInfo pod.status.containerStatuses) }

/-! ## Recommendation Engine (`src/unnamed/part_000`, lines 142–284) -/

/-- `containsReason`. -/
def containsReason (issue : Issue) (reason : String) : Bool :=
  match issue.details.lookup "reason" with
  | some r => if r = reason then true else issue.title = reason
  | none => issue.title = reason

/-- `getRecommendationsForIssue` (part_000, lines 166–274). -/
def getRecommendationsForIssue (issue : Issue) (pod : PodInfo) : List Recommendation :=
  if issue.category = "container" then
    (if issue.title = "CrashLoopBackOff" ∨ containsReason issue "CrashLoopBackOff" then
      [{ priority := 1
         title := "Check container logs"
         description := "Review container logs to identify the crash cause"
         command := "kubectl logs " ++ pod.name ++ " -n " ++ pod.ns ++ " --previous" }]
    else []) ++
    (if containsReason issue "ImagePullBackOff" ∨ containsReason issue "ErrImagePull" then
      [{ priority := 1
         title := "Verify image exists"
         description := "Check if the image exists and is accessible"
         command := "kubectl describe pod " ++ pod.name ++ " -n " ++ pod.ns },
       { priority := 2
         title := "Check image pull secrets"
         description := "Ensure imagePullSecrets are configured if using a private registry" }]
    else [])
  else if issue.category = "resources" then
    (if containsReason issue "OOMKilled" then
      [{ priority := 1
         title := "Increase memory limit"
         description := "Container exceeded memory limit; consider increasing it"
         command := "kubectl set resources deployment/<deployment-name> -c <container> --limits=memory=<new-limit>" }]
    else []) ++
    (if containsSubstr issue.title "No resource limits" then
      [{ priority := 2
         title := "Add resource limits"
         description := "Set resource limits to prevent resource contention"
         command := "kubectl set resources deployment/<deployment-name> -c <container> --limits=cpu=500m,memory=256Mi" }]
    else []) ++
    (if containsSubstr issue.title "BestEffort QoS" then
      [{ priority := 2
         title := "Configure resource requests and limits"
         description := "BestEffort pods are first to be evicted; add resources for better QoS" }]
    else [])
  else if issue.category = "probes" then
    (if containsSubstr issue.title "probe failed" then
      [{ priority := 1
         title := "Check probe endpoint"
         description := "Verify the probe endpoint is responding correctly"
         command := "kubectl exec " ++ pod.name ++ " -n " ++ pod.ns ++ " -- curl -v localhost:<port>/<path>" }]
    else []) ++
    (if containsSubstr issue.title "No health probes" then
      [{ priority := 3
         title := "Add health probes"
         description := "Consider adding liveness and readiness probes for better health monitoring" }]
    else []) ++
    (if containsSubstr issue.title "running but not ready" then
      [{ priority := 1
         title := "Debug readiness probe"
         description := "Check why readiness probe is failing"
         command := "kubectl describe pod " ++ pod.name ++ " -n " ++ pod.ns ++ " | grep -A10 'Readiness'" }]
    else [])
  else if issue.category = "scheduling" then
    [{ priority := 1
       title := "Check node resources"
       description := "Verify cluster has nodes with sufficient resources"
       command := "kubectl describe nodes | grep -A5 'Allocated resources'" },
     { priority := 2
       title := "Review pod tolerations"
       description := "Check if pod has required tolerations for tainted nodes" }]
  else if issue.category = "node" then
    [{ priority := 1
       title := "Check node status"
       description := "Review node conditions and events"
       command := "kubectl describe node " ++ pod.node }]
  else if issue.category = "logs" then
    [{ priority := 2
       title := "Review full logs"
       description := "Check complete container logs for more context"
       command := "kubectl logs " ++ pod.name ++ " -n " ++ pod.ns ++ " --tail=100" }]
  else []

/-- One step of the dedup loop in `generateRecommendations`: the `seenRecs`
`map[string]bool` is a function with default `false`. -/
def addRecommendation (st : List Recommendation × (String → Bool))
    (rec : Recommendation) : List Recommendation × (String → Bool) :=
  if st.2 rec.title then st
  else (st.1 ++ [rec], fun t => if t = rec.title then true else st.2 t)

/-- The accumulation loops of `generateRecommendations` (issues outer,
candidate recommendations inner, first-seen title wins). -/
def accumulateRecommendations (issues : List Issue) (pod : PodInfo) :
    List Recommendation × (String → Bool) :=
  issues.foldl
    (fun st issue => (getRecommendationsForIssue issue pod).foldl addRecommendation st)
    ([], fun _ => false)

/-- `generateRecommendations` (part_000, lines 143–163).  The final
`sort.Slice(recs, by ascending Priority)` is modelled by a comparison sort
on the same key; note Go's `sort.Slice` guarantees a sorted permutation but
is documented as NOT stable. -/
def generateRecommendations (d : Diagnosis) : List Recommendation :=
  List.insertionSort (fun a b => a.priority ≤ b.priority)
    (accumulateRecommendations d.issues d.pod).1

/-! ## Diagnostic Pipeline (`PodAnalyzer.Diagnose`, part_000, lines 43–87) -/

/-- The fixed analyzer list built by `NewPodAnalyzer`, in declared order. -/
def defaultAnalyzers : List (Client → Pod → Except String (List Issue)) :=
  [statusAnalyzerAnalyze, eventAnalyzerAnalyze, logAnalyzerAnalyze,
   nodeAnalyzerAnalyze, resourceAnalyzerAnalyze, probeAnalyzerAnalyze]

/-- `PodAnalyzer`. -/
structure PodAnalyzer where
  client : Client
  analyzers : List (Client → Pod → Except String (List Issue))

/-- `NewPodAnalyzer`. -/
def newPodAnalyzer (client : Client) : PodAnalyzer :=
  { client := client, analyzers := defaultAnalyzers }

/-- The analyzer loop body of `Diagnose`: a failing analyzer contributes
nothing (`continue`). -/
def analyzerIssues (client : Client) (pod : Pod)
    (analyze : Client → Pod → Except String (List Issue)) : List Issue :=
  match analyze client pod with
  | .ok issues => issues
  | .error _ => []

/-- `PodAnalyzer.Diagnose`. -/
def diagnose (p : PodAnalyzer) (ns name : String) : Except String Diagnosis :=
  match p.client.getPod ns name with
  | .error e => .error e
  | .ok pod =>
    let d : Diagnosis :=
      { pod := extractPodInfo pod
        status := detectPodStatus pod
        issues := (p.analyzers.map (analyzerIssues p.client pod)).flatten
        events :=
          match p.client.getPodEvents ns name with
          | .ok events => events
          | .error _ => []
        node :=
          if pod.spec.nodeName ≠ "" then
            match p.client.getNodeHealth pod.spec.nodeName with
            | .ok nh => some nh
            | .error _ => none
          else none
        recommendations := [] }
    .ok { d with recommendations := generateRecommendations d }

/-! ## Scan unhealthy-only filter (`runScan`, src/unnamed/part_005) -/

/-- The `--unhealthy` post-hoc filter in `runScan` (part_005, lines
109–117): keep exactly the diagnoses that are not healthy. -/
def filterUnhealthy (diagnoses : List Diagnosis) : List Diagnosis :=
  diagnoses.filter (fun d => !d.isHealthy)

/-! ## Concrete fixtures used by counterexamples and witnesses -/

/-- A single container both waiting in `CrashLoopBackOff` and with last
termination `OOMKilled` (C1's scenario). -/
def csCrashOOM : ContainerStatus :=
  { name := "app"
    state := { waiting := some { reason := "CrashLoopBackOff", message := "" } }
    lastTerminationState :=
      { terminated := some { exitCode := 137, reason := "OOMKilled", message := "" } } }

/-- A pod, not marked for deletion, whose only container is `csCrashOOM`. -/
def podC1 : Pod :=
  { name := "web"
    ns := "default"
    status := { phase := "Running", containerStatuses := [csCrashOOM] } }

/-- A pod with an `OOMKilled` container listed before a `CrashLoopBackOff`
container (C2's cross-container scenario). -/
def podC2 : Pod :=
  { name := "web2"
    ns := "default"
    status :=
      { phase := "Running"
        containerStatuses :=
          [{ name := "a"
             lastTerminationState :=
               { terminated := some { exitCode := 137, reason := "OOMKilled", message := "" } } },
           { name := "b"
             state := { waiting := some { reason := "CrashLoopBackOff", message := "" } } }] } }

/-- The dedup invariant of the Recommendation Engine's accumulation state:
accepted titles are pairwise distinct and the seen-set is exactly the set of
accepted titles. -/
def RecInvariant (st : List Recommendation × (String → Bool)) : Prop :=
  st.1.Pairwise (fun a b => a.title ≠ b.title) ∧
  ∀ t, st.2 t = true ↔ ∃ r ∈ st.1, r.title = t

/-- Dummy pod identity for recommendation-engine inputs. -/
def podInfo13 : PodInfo :=
  { name := "p", ns := "d", node := "n1", phase := "Running", ip := ""
    restarts := 0, containers := [], labels := [] }

/-- Issue fixture builder for the recommendation-engine inputs. -/
def mkIssue13 (category title : String) (details : List (String × String)) : Issue :=
  { severity := SeverityWarning, category := category, title := title
    description := "", details := details }

/-- An issue list that makes `getRecommendationsForIssue` produce all 13
distinct recommendation titles of the static table (C4's failing input:
more than 12 entries, with equal-priority ties). -/
def issues13 : List Issue :=
  [mkIssue13 "container" "CrashLoopBackOff" [],
   mkIssue13 "container" "pull" [("reason", "ImagePullBackOff")],
   mkIssue13 "resources" "oom" [("reason", "OOMKilled")],
   mkIssue13 "resources" "No resource limits for app" [],
   mkIssue13 "resources" "BestEffort QoS for app" [],
   mkIssue13 "probes" "Liveness probe failed" [],
   mkIssue13 "probes" "No health probes for app" [],
   mkIssue13 "probes" "Container app running but not ready" [],
   mkIssue13 "scheduling" "Pod cannot be scheduled" [],
   mkIssue13 "node" "Node n1 is not ready" [],
   mkIssue13 "logs" "[app] Timeout" []]

/-- The diagnosis carrying `issues13`. -/
def diag13 : Diagnosis :=
  { pod := podInfo13, status := "CrashLoopBackOff", issues := issues13
    events := [], node := none, recommendations := [] }

/-- A 250-character line. -/
def line250 : String := String.mk (List.replicate 250 'a')

/-- A 50-character line. -/
def line50 : String := String.mk (List.replicate 50 'b')

/-- Client for the C6 witness: container "a" has no logs at all, container
"b" has a panicking current log. -/
def clientW6 : Client :=
  { getPod := fun _ _ => .error "unused"
    getPodLogs := fun _ _ c _ _ =>
      if c = "a" then .error "gone" else .ok "panic: boom"
    getPodEvents := fun _ _ => .error "unused"
    getNodeHealth := fun _ => .error "unused" }

/-- Pod for the C6 witness: two containers "a" and "b". -/
def podW6 : Pod :=
  { name := "p"
    ns := "d"
    spec := { containers := [{ name := "a" }, { name := "b" }] } }

/-- The BestEffort/no-probes pod of C7: one container with no resource
requests, no limits and no probes; running, ready, no conditions. -/
def podC7 : Pod :=
  { name := "plain"
    ns := "default"
    spec := { containers := [{ name := "app" }] }
    status :=
      { phase := "Running"
        containerStatuses := [{ name := "app", ready := true, state := { running := true } }] } }

/-- Client for C7: the pod exists, logs are empty, there are no events, and
the pod is unscheduled so node health is never consulted. -/
def clientC7 : Client :=
  { getPod := fun _ _ => .ok podC7
    getPodLogs := fun _ _ _ _ _ => .ok ""
    getPodEvents := fun _ _ => .ok []
    getNodeHealth := fun _ => .error "no node" }

/-- A marker issue for the C8 witness. -/
def issueW8 : Issue :=
  { severity := SeverityInfo, category := "events", title := "W"
    description := "", details := [] }

/-- Pod for the C8 witness, scheduled on node "n1". -/
def podW8 : Pod := { name := "p", ns := "d", spec := { nodeName := "n1" } }

/-- Client for the C8 witness: the pod fetch succeeds but events and node
health both fail. -/
def clientW8 : Client :=
  { getPod := fun _ _ => .ok podW8
    getPodLogs := fun _ _ _ _ _ => .error "no logs"
    getPodEvents := fun _ _ => .error "no events"
    getNodeHealth := fun _ => .error "down" }

/-- An analyzer that always fails (C8: per-analyzer failures are skipped). -/
def analyzerFail : Client → Pod → Except String (List Issue) :=
  fun _ _ => .error "boom"

/-- An analyzer that always returns the marker issue. -/
def analyzerConst : Client → Pod → Except String (List Issue) :=
  fun _ _ => .ok [issueW8]

/-- A `PodAnalyzer` with one failing and one succeeding analyzer. -/
def pW8 : PodAnalyzer := { client := clientW8, analyzers := [analyzerFail, analyzerConst] }

/-- A diagnosis with status `Healthy` but one info-severity issue (C10:
it must be retained by the unhealthy-only filter). -/
def dW10 : Diagnosis :=
  { pod := podInfo13
    status := StatusHealthy
    issues := [{ severity := SeverityInfo, category := "probes"
                 title := "No health probes for app", description := "", details := [] }]
    events := [], node := none, recommendations := [] }

/-! ## Theorems -/

/-- Helper: a prefix of containers without early-return signals does not
affect the container scan of `detectPodStatus`. -/
theorem firstContainerSignal_append_of_none (pre l : List ContainerStatus)
    (h : ∀ c ∈ pre, containerStatusSignal c = none) :
    firstContainerSignal (pre ++ l) = firstContainerSignal l := by
  induction pre with
  | nil => rfl
  | cons c rest ih =>
    have hc : containerStatusSignal c = none := h c (List.mem_cons_self c rest)
    have hrest : ∀ x ∈ rest, containerStatusSignal x = none :=
      fun x hx => h x (List.mem_cons_of_mem c hx)
    simp [firstContainerSignal, hc, ih hrest]

/-- Helper: no container signal at all means the scan yields nothing. -/
theorem firstContainerSignal_eq_none_of_all (l : List ContainerStatus)
    (h : ∀ c ∈ l, containerStatusSignal c = none) :
    firstContainerSignal l = none := by
  induction l with
  | nil => rfl
  | cons c rest ih =>
    have hc := h c (List.mem_cons_self c rest)
    simp [firstContainerSignal, hc,
      ih (fun x hx => h x (List.mem_cons_of_mem c hx))]

/-- C1 (counterexample): a pod, not marked for deletion, whose single
container waits in CrashLoopBackOff with last termination OOMKilled is NOT
classified OOMKilled, contradicting the claim. -/
theorem detectPodStatus_crashloop_oom_counterexample :
    podC1.deletionTimestamp = none ∧
    podC1.status.containerStatuses = [csCrashOOM] ∧
    csCrashOOM.state.waiting = some { reason := "CrashLoopBackOff", message := "" } ∧
    csCrashOOM.lastTerminationState.terminated =
      some { exitCode := 137, reason := "OOMKilled", message := "" } ∧
    detectPodStatus podC1 ≠ StatusOOMKilled := by decide

/-- C1 (amended): for every pod not marked for deletion whose single
container waits with reason CrashLoopBackOff and has last-termination
reason OOMKilled, the Status Classifier returns CrashLoopBackOff — the
waiting-reason check runs before the OOM check within each container. -/
theorem detectPodStatus_crashloop_waiting_wins (pod : Pod) (cs : ContainerStatus)
    (w : ContainerStateWaiting) (t : ContainerStateTerminated)
    (hdel : pod.deletionTimestamp = none)
    (hcs : pod.status.containerStatuses = [cs])
    (hw : cs.state.waiting = some w)
    (hr : w.reason = "CrashLoopBackOff")
    (ht : cs.lastTerminationState.terminated = some t)
    (hoom : t.reason = "OOMKilled") :
    detectPodStatus pod = StatusCrashLoop := by
  simp only [detectPodStatus, hdel, Option.isSome_none, Bool.false_eq_true,
    if_false, hcs]
  simp [firstContainerSignal, containerStatusSignal, hw, hr]

/-- C1 (witness): the amended statement applied at the concrete pod. -/
theorem detectPodStatus_crashloop_waiting_wins_witness :
    detectPodStatus podC1 = StatusCrashLoop :=
  detectPodStatus_crashloop_waiting_wins podC1 csCrashOOM _ _ rfl rfl rfl rfl rfl rfl

/-- C2 (counterexample): a pod whose first listed container has
last-termination reason OOMKilled while a later container waits in
CrashLoopBackOff is classified OOMKilled, not CrashLoopBackOff; the
waiting rule does not take global priority over the OOM rule across
containers. -/
theorem detectPodStatus_cross_container_counterexample :
    podC2.deletionTimestamp = none ∧
    (podC2.status.containerStatuses.map fun cs =>
      (cs.state.waiting, cs.lastTerminationState.terminated)) =
      [(none, some { exitCode := 137, reason := "OOMKilled", message := "" }),
       (some { reason := "CrashLoopBackOff", message := "" }, none)] ∧
    detectPodStatus podC2 = StatusOOMKilled ∧ StatusOOMKilled ≠ StatusCrashLoop := by
  decide

/-- C2 (amended): the Status Classifier checks deletion first (Terminating
wins over everything); then scans containers in list order, checking each
container's waiting reason (CrashLoopBackOff / ImagePull / CreateContainer
errors) and then its OOMKilled last termination, the first signal over that
per-container scan winning; with no signal it dispatches on the phase:
Pending, Failed+Evicted, Failed, Running with a non-ready container,
Running all ready, Succeeded, otherwise Unknown. -/
theorem detectPodStatus_rules_amended (pod : Pod) :
    (pod.deletionTimestamp.isSome = true → detectPodStatus pod = StatusTerminating) ∧
    (pod.deletionTimestamp = none →
      (∀ pre cs post s, pod.status.containerStatuses = pre ++ cs :: post →
        (∀ c ∈ pre, containerStatusSignal c = none) →
        containerStatusSignal cs = some s →
        detectPodStatus pod = s) ∧
      ((∀ c ∈ pod.status.containerStatuses, containerStatusSignal c = none) →
        (pod.status.phase = "Pending" → detectPodStatus pod = StatusPending) ∧
        (pod.status.phase = "Failed" → pod.status.reason = "Evicted" →
          detectPodStatus pod = StatusEvicted) ∧
        (pod.status.phase = "Failed" → pod.status.reason ≠ "Evicted" →
          detectPodStatus pod = StatusError) ∧
        (pod.status.phase = "Running" →
          (∃ c ∈ pod.status.containerStatuses, c.ready = false) →
          detectPodStatus pod = StatusNotReady) ∧
        (pod.status.phase = "Running" →
          (∀ c ∈ pod.status.containerStatuses, c.ready = true) →
          detectPodStatus pod = StatusHealthy) ∧
        (pod.status.phase = "Succeeded" → detectPodStatus pod = StatusHealthy) ∧
        (pod.status.phase ≠ "Pending" → pod.status.phase ≠ "Failed" →
          pod.status.phase ≠ "Running" → pod.status.phase ≠ "Succeeded" →
          detectPodStatus pod = StatusUnknown))) ∧
    (∀ (cs : ContainerStatus) (w : ContainerStateWaiting), cs.state.waiting = some w →
      (w.reason = "CrashLoopBackOff" → containerStatusSignal cs = some StatusCrashLoop) ∧
      (w.reason = "ImagePullBackOff" ∨ w.reason = "ErrImagePull" →
        containerStatusSignal cs = some StatusImagePull) ∧
      (w.reason = "CreateContainerError" →
        containerStatusSignal cs = some StatusCreateError) ∧
      (w.reason = "CreateContainerConfigError" →
        containerStatusSignal cs = some StatusConfigError)) ∧
    (∀ (cs : ContainerStatus) (t : ContainerStateTerminated), cs.state.waiting = none →
      cs.lastTerminationState.terminated = some t → t.reason = "OOMKilled" →
      containerStatusSignal cs = some StatusOOMKilled) := by
  refine ⟨?_, ?_, ?_, ?_⟩
  · intro h
    simp [detectPodStatus, h]
  · intro hdel
    constructor
    · intro pre cs post s hsplit hpre hsig
      simp only [detectPodStatus, hdel, Option.isSome_none, Bool.false_eq_true,
        if_false, hsplit]
      rw [firstContainerSignal_append_of_none pre _ hpre]
      simp [firstContainerSignal, hsig]
    · intro hall
      have hnone := firstContainerSignal_eq_none_of_all _ hall
      have hps : detectPodStatus pod = phaseStatus pod := by
        simp [detectPodStatus, hdel, hnone]
      refine ⟨?_, ?_, ?_, ?_, ?_, ?_, ?_⟩
      · intro hp; rw [hps]; simp [phaseStatus, hp]
      · intro hp hr; rw [hps]; simp [phaseStatus, hp, hr]
      · intro hp hr; rw [hps]; simp [phaseStatus, hp, hr]
      · intro hp hex
        obtain ⟨c, hcmem, hcready⟩ := hex
        have hallb : pod.status.containerStatuses.all (fun cs => cs.ready) = false := by
          cases hq : pod.status.containerStatuses.all (fun cs => cs.ready) with
          | false => rfl
          | true =>
            have := List.all_eq_true.mp hq c hcmem
            rw [hcready] at this
            exact absurd this (by simp)
        rw [hps]; simp [phaseStatus, hp, hallb]
      · intro hp hready
        have hallb : pod.status.containerStatuses.all (fun cs => cs.ready) = true :=
          List.all_eq_true.mpr (fun c hc => by rw [hready c hc])
        rw [hps]; simp [phaseStatus, hp, hallb]
      · intro hp; rw [hps]; simp [phaseStatus, hp]
      · intro h1 h2 h3 h4; rw [hps]; simp [phaseStatus, h1, h2, h3, h4]
  · intro cs w hw
    refine ⟨?_, ?_, ?_, ?_⟩
    · intro hr; simp [containerStatusSignal, hw, hr]
    · rintro (hr | hr) <;> simp [containerStatusSignal, hw, hr]
    · intro hr; simp [containerStatusSignal, hw, hr]
    · intro hr; simp [containerStatusSignal, hw, hr]
  · intro cs t hw ht hr
    simp [containerStatusSignal, hw, ht, hr]

/-- C2 (witness): the amended rule order applied at the concrete
cross-container pod yields OOMKilled. -/
theorem detectPodStatus_rules_amended_witness :
    detectPodStatus podC2 = StatusOOMKilled := by
  have h := ((detectPodStatus_rules_amended podC2).2.1 rfl).1
  exact h [] _ _ StatusOOMKilled rfl (by intro c hc; cases hc) (by decide)

/-- Helper: one dedup step of the Recommendation Engine preserves the
invariant. -/
theorem recInvariant_add (st : List Recommendation × (String → Bool))
    (r0 : Recommendation) (h : RecInvariant st) :
    RecInvariant (addRecommendation st r0) := by
  obtain ⟨hpw, hseen⟩ := h
  unfold addRecommendation
  by_cases hb : st.2 r0.title = true
  · simp only [hb, if_true]
    exact ⟨hpw, hseen⟩
  · have hb' : st.2 r0.title = false := by
      cases hq : st.2 r0.title
      · rfl
      · exact absurd hq hb
    simp only [hb', Bool.false_eq_true, if_false]
    constructor
    · show (st.1 ++ [r0]).Pairwise (fun a b => a.title ≠ b.title)
      rw [List.pairwise_append]
      refine ⟨hpw, List.pairwise_singleton _ _, ?_⟩
      intro a ha b hb2
      have hbr : b = r0 := by simpa using hb2
      subst hbr
      intro htitle
      have : st.2 b.title = true := (hseen b.title).mpr ⟨a, ha, htitle⟩
      rw [hb'] at this
      cases this
    · intro t
      show (if t = r0.title then true else st.2 t) = true ↔ ∃ r ∈ st.1 ++ [r0], r.title = t
      by_cases hteq : t = r0.title
      · subst hteq
        simp only [if_pos rfl]
        exact ⟨fun _ => ⟨r0, by simp, rfl⟩, fun _ => rfl⟩
      · rw [if_neg hteq, hseen t]
        constructor
        · rintro ⟨r, hr, hrt⟩
          exact ⟨r, List.mem_append_left _ hr, hrt⟩
        · rintro ⟨r, hr, hrt⟩
          rcases List.mem_append.mp hr with h1 | h1
          · exact ⟨r, h1, hrt⟩
          · have : r = r0 := by simpa using h1
            subst this
            exact absurd hrt (fun hx => hteq hx.symm)

/-- Helper: folding any candidate list through the dedup step preserves the
invariant. -/
theorem recInvariant_foldl (recs : List Recommendation)
    (st : List Recommendation × (String → Bool)) (h : RecInvariant st) :
    RecInvariant (recs.foldl addRecommendation st) := by
  induction recs generalizing st with
  | nil => exact h
  | cons r rs ih => exact ih _ (recInvariant_add st r h)

/-- Helper: the issue loop preserves the invariant. -/
theorem recInvariant_issues_foldl (pod : PodInfo) (issues : List Issue)
    (st : List Recommendation × (String → Bool)) (h : RecInvariant st) :
    RecInvariant (issues.foldl
      (fun st issue => (getRecommendationsForIssue issue pod).foldl addRecommendation st)
      st) := by
  induction issues generalizing st with
  | nil => exact h
  | cons i is ih => exact ih _ (recInvariant_foldl _ _ h)

/-- Helper: the accumulated pre-sort recommendation list satisfies the
invariant. -/
theorem recInvariant_accumulate (issues : List Issue) (pod : PodInfo) :
    RecInvariant (accumulateRecommendations issues pod) :=
  recInvariant_issues_foldl pod issues ([], fun _ => false)
    ⟨List.Pairwise.nil, by intro t; simp⟩

/-- C3: for every diagnosis, the Recommendation Engine's output has pairwise
distinct titles and is sorted by non-decreasing priority. -/
theorem generateRecommendations_distinct_titles_sorted (d : Diagnosis) :
    (generateRecommendations d).Pairwise (fun a b => a.title ≠ b.title) ∧
    (generateRecommendations d).Pairwise (fun a b => a.priority ≤ b.priority) := by
  have hinv := recInvariant_accumulate d.issues d.pod
  have hperm : List.Perm (accumulateRecommendations d.issues d.pod).1
      (generateRecommendations d) :=
    (List.perm_insertionSort _ _).symm
  constructor
  · exact hinv.1.perm hperm (fun h => h.symm)
  · haveI : IsTotal Recommendation (fun a b => a.priority ≤ b.priority) :=
      ⟨fun a b => Int.le_total a.priority b.priority⟩
    haveI : IsTrans Recommendation (fun a b => a.priority ≤ b.priority) :=
      ⟨fun _ _ _ hab hbc => le_trans hab hbc⟩
    exact List.sorted_insertionSort _ _

/-- C4: the failing input evaluated on the engine — `issues13` is accepted
into thirteen distinct recommendations (beyond the twelve-element
insertion-sort cutoff of Go's `sort.Slice`), with seven priority-1 ties and
five priority-2 ties, the regime in which `sort.Slice` gives no stability
guarantee. -/
theorem generateRecommendations_thirteen_with_ties :
    (generateRecommendations diag13).length = 13 ∧
    (generateRecommendations diag13).countP (fun r => r.priority == 1) = 7 ∧
    (generateRecommendations diag13).countP (fun r => r.priority == 2) = 5 ∧
    (generateRecommendations diag13).map (fun r => r.title) =
      ["Check container logs", "Verify image exists", "Increase memory limit",
       "Check probe endpoint", "Debug readiness probe", "Check node resources",
       "Check node status", "Check image pull secrets", "Add resource limits",
       "Configure resource requests and limits", "Review pod tolerations",
       "Review full logs", "Add health probes"] := by decide

/-- C5: a line of at most 200 characters is stored unchanged; a longer line
is truncated to exactly 200 characters, its first 197 followed by the
three-character ellipsis marker. -/
theorem truncateLine_spec (line : String) :
    (line.length ≤ 200 → truncateLine line 200 = line) ∧
    (200 < line.length →
      (truncateLine line 200).length = 200 ∧
      (truncateLine line 200).data = line.data.take 197 ++ ['.', '.', '.']) := by
  constructor
  · intro h
    simp [truncateLine, h]
  · intro h
    have h' : ¬ line.length ≤ 200 := by omega
    have hdata : (truncateLine line 200).data = line.data.take 197 ++ ['.', '.', '.'] := by
      simp only [truncateLine, h', if_false]
      rfl
    refine ⟨?_, hdata⟩
    have h2 : (truncateLine line 200).length = (line.data.take 197 ++ ['.', '.', '.']).length :=
      congrArg List.length hdata
    have hld : line.data.length = line.length := rfl
    rw [h2, List.length_append, List.length_take, hld]
    simp only [List.length_cons, List.length_nil]
    omega

set_option maxRecDepth 4000 in
/-- C5 (witness): the 50-character line is unchanged and the 250-character
line becomes a 200-character sample ending in the marker. -/
theorem truncateLine_spec_witness :
    line50.length ≤ 200 ∧ truncateLine line50 200 = line50 ∧
    200 < line250.length ∧ (truncateLine line250 200).length = 200 ∧
    (truncateLine line250 200).data = line250.data.take 197 ++ ['.', '.', '.'] := by
  have hl50 : line50.length ≤ 200 := by decide
  have hl250 : 200 < line250.length := by decide
  obtain ⟨ha, hb⟩ := (truncateLine_spec line250).2 hl250
  exact ⟨hl50, (truncateLine_spec line50).1 hl50, hl250, ha, hb⟩

/-- C6: the Log analyzer's Analyze never returns a failure; each container's
contribution falls back once to previous-instance logs, and when both
fetches fail the container contributes no issues while the per-container
contributions of the other containers are still concatenated into the
result. -/
theorem logAnalyzer_never_fails (client : Client) (pod : Pod) :
    (logAnalyzerAnalyze client pod).isOk = true ∧
    logAnalyzerAnalyze client pod =
      .ok ((pod.spec.containers.map (logAnalyzeContainer client pod.ns pod.name)).flatten) ∧
    (∀ (c : Container) (e₁ e₂ : String),
      client.getPodLogs pod.ns pod.name c.name 100 false = .error e₁ →
      client.getPodLogs pod.ns pod.name c.name 100 true = .error e₂ →
      logAnalyzeContainer client pod.ns pod.name c = []) ∧
    (∀ (c : Container) (e₁ logs : String),
      client.getPodLogs pod.ns pod.name c.name 100 false = .error e₁ →
      client.getPodLogs pod.ns pod.name c.name 100 true = .ok logs →
      logAnalyzeContainer client pod.ns pod.name c = analyzeContainerLogsPure c.name logs) := by
  refine ⟨rfl, rfl, ?_, ?_⟩
  · intro c e₁ e₂ h1 h2
    simp [logAnalyzeContainer, analyzeContainerLogs, h1, h2]
  · intro c e₁ logs h1 h2
    simp [logAnalyzeContainer, analyzeContainerLogs, h1, h2]

/-- C6 (witness): with container "a" failing both log fetches and container
"b" yielding a panic line, "a" contributes nothing and Analyze still
succeeds. -/
theorem logAnalyzer_never_fails_witness :
    logAnalyzeContainer clientW6 "d" "p" { name := "a" } = [] ∧
    (logAnalyzerAnalyze clientW6 podW6).isOk = true := by
  obtain ⟨hok, _, hboth, _⟩ := logAnalyzer_never_fails clientW6 podW6
  exact ⟨hboth { name := "a" } "gone" "gone" rfl rfl, hok⟩

/-- C7 (counterexample): the BestEffort/no-probes pod's diagnosis has TWO
resources-category warning issues ("No resource limits" and "BestEffort
QoS"), not exactly one as claimed. -/
theorem diagnose_bestEffort_counterexample :
    (diagnose (newPodAnalyzer clientC7) "default" "plain").toOption.map
      (fun d => (d.issues.filter (fun i =>
        i.category == "resources" && i.severity == SeverityWarning)).map
          (fun i => i.title)) =
      some ["No resource limits for app", "BestEffort QoS for app"] := by decide

/-- C7 (amended): for the container with no requests, no limits and no
probes, the diagnosis contains exactly the two resources-category warnings
"No resource limits" and "BestEffort QoS" and the single probes-category
info issue "No health probes"; the recommendations are "Add resource
limits" (2), "Configure resource requests and limits" (2) and "Add health
probes" (3), the priority-2 entries before the priority-3 entry. -/
theorem diagnose_bestEffort_amended :
    (diagnose (newPodAnalyzer clientC7) "default" "plain").toOption.map
      (fun d =>
        ((d.issues.filter (fun i =>
            i.category == "resources" && i.severity == SeverityWarning)).map (fun i => i.title),
         (d.issues.filter (fun i =>
            i.category == "probes" && i.severity == SeverityInfo)).map (fun i => i.title),
         d.recommendations.map (fun r => (r.priority, r.title)))) =
      some (["No resource limits for app", "BestEffort QoS for app"],
            ["No health probes for app"],
            [(2, "Add resource limits"),
             (2, "Configure resource requests and limits"),
             (3, "Add health probes")]) := by decide

/-- C8: Diagnose fails exactly when the pod fetch fails; analyzer failures
contribute no issues while the other analyzers' issues are kept, and
events/node-health fetch failures leave the corresponding fields empty. -/
theorem diagnose_error_handling (p : PodAnalyzer) (ns name : String) :
    ((∃ e, diagnose p ns name = .error e) ↔ (∃ e, p.client.getPod ns name = .error e)) ∧
    (∀ e, p.client.getPod ns name = .error e → diagnose p ns name = .error e) ∧
    (∀ pod, p.client.getPod ns name = .ok pod →
      ∀ d, diagnose p ns name = .ok d →
        d.issues = (p.analyzers.map (analyzerIssues p.client pod)).flatten ∧
        (∀ analyze issues, analyze p.client pod = .ok issues →
          analyzerIssues p.client pod analyze = issues) ∧
        (∀ analyze e, analyze p.client pod = .error e →
          analyzerIssues p.client pod analyze = []) ∧
        (∀ e, p.client.getPodEvents ns name = .error e → d.events = []) ∧
        (∀ events, p.client.getPodEvents ns name = .ok events → d.events = events) ∧
        (pod.spec.nodeName = "" → d.node = none) ∧
        (∀ e, pod.spec.nodeName ≠ "" →
          p.client.getNodeHealth pod.spec.nodeName = .error e → d.node = none)) := by
  rcases hget : p.client.getPod ns name with e0 | pod0
  · refine ⟨⟨fun _ => ⟨e0, rfl⟩, fun _ => ⟨e0, by simp [diagnose, hget]⟩⟩, ?_, ?_⟩
    · intro e he
      injection he with he'
      subst he'
      simp [diagnose, hget]
    · intro pod hpod
      exact Except.noConfusion hpod
  · refine ⟨⟨?_, ?_⟩, ?_, ?_⟩
    · rintro ⟨e, he⟩
      simp only [diagnose, hget] at he
      cases he
    · rintro ⟨e, he⟩
      exact Except.noConfusion he
    · intro e he
      exact Except.noConfusion he
    · intro pod hpod
      injection hpod with hpe
      subst hpe
      intro d hd
      simp only [diagnose, hget] at hd
      injection hd with hde
      subst hde
      refine ⟨rfl, ?_, ?_, ?_, ?_, ?_, ?_⟩
      · intro analyze issues ha
        simp [analyzerIssues, ha]
      · intro analyze e ha
        simp [analyzerIssues, ha]
      · intro e he
        simp [he]
      · intro events he
        simp [he]
      · intro hn
        simp [hn]
      · intro e hn hne
        simp [hn, hne]

/-- C8 (witness): with a failing and a succeeding analyzer, a failing event
fetch and a failing node-health fetch, the diagnosis succeeds with exactly
the succeeding analyzer's issue, empty events, and no node health. -/
theorem diagnose_error_handling_witness :
    (diagnose pW8 "d" "p").map (fun d => (d.issues, d.events, d.node)) =
      .ok ([issueW8], [], none) := by
  rcases hd : diagnose pW8 "d" "p" with e | d
  · exfalso
    obtain ⟨e2, hge⟩ := (diagnose_error_handling pW8 "d" "p").1.mp ⟨e, hd⟩
    simp [pW8, clientW8] at hge
  · obtain ⟨h1, _, _, h4, _, _, h7⟩ :=
      (diagnose_error_handling pW8 "d" "p").2.2 podW8 rfl d hd
    simp only [Except.map]
    have hiss : d.issues = [issueW8] := by rw [h1]; rfl
    have hev : d.events = [] := h4 "no events" rfl
    have hnode : d.node = none := h7 "down" (by decide) rfl
    rw [hiss, hev, hnode]

/-- C10: a diagnosis is healthy exactly when its status label is Healthy and
its issue list is empty; consequently the scan's unhealthy-only filter
retains every diagnosis that has at least one issue, whatever its status
label. -/
theorem isHealthy_iff_and_filter_keeps_issued :
    (∀ d : Diagnosis, d.isHealthy = true ↔ (d.issues = [] ∧ d.status = StatusHealthy)) ∧
    (∀ (ds : List Diagnosis) (d : Diagnosis), d ∈ ds → d.issues ≠ [] →
      d ∈ filterUnhealthy ds) := by
  have hiff : ∀ d : Diagnosis,
      d.isHealthy = true ↔ (d.issues = [] ∧ d.status = StatusHealthy) := by
    intro d
    simp [Diagnosis.isHealthy, List.length_eq_zero]
  refine ⟨hiff, ?_⟩
  intro ds d hmem hne
  rw [filterUnhealthy, List.mem_filter]
  refine ⟨hmem, ?_⟩
  cases hh : d.isHealthy
  · rfl
  · exact absurd ((hiff d).mp hh).1 hne

/-- C10 (witness): a status-Healthy diagnosis with one info issue is kept by
the unhealthy-only filter. -/
theorem isHealthy_filter_witness :
    dW10.status = StatusHealthy ∧ dW10 ∈ filterUnhealthy [dW10] :=
  ⟨rfl, isHealthy_iff_and_filter_keeps_issued.2 [dW10] dW10
    (List.mem_singleton.mpr rfl) (by decide)⟩

/-- Helper: one line contributes, per pattern-table entry with the looked-up
title that matches the line, one truncated copy of the line. -/
theorem collectLine_apply (ps : List ErrorPattern) (line : String)
    (m : String → List String) (t : String) :
    collectLine ps line m t =
      m t ++ (ps.filter (fun p => p.title == t && p.matchesLine line)).map
        (fun _ => truncateLine line 200) := by
  induction ps generalizing m with
  | nil => simp [collectLine]
  | cons p ps ih =>
    have hstep : collectLine (p :: ps) line m =
        collectLine ps line
          (if p.matchesLine line then updateMatches m p.title (truncateLine line 200) else m) := rfl
    rw [hstep, ih]
    by_cases hm : p.matchesLine line = true
    · by_cases ht : p.title = t
      · subst ht
        simp [updateMatches, hm, List.filter_cons]
      · simp [updateMatches, hm, ht, List.filter_cons, Ne.symm ht]
    · have hm' : p.matchesLine line = false := by
        cases hq : p.matchesLine line
        · rfl
        · exact absurd hq hm
      simp [hm', List.filter_cons]

/-- Helper: the matched-patterns map collects, over the non-blank lines in
order, the per-line contributions. -/
theorem collectMatches_apply (ps : List ErrorPattern) (lines : List String) (t : String) :
    collectMatches ps lines t =
      ((lines.filter (fun line => !isBlankLine line)).map
        (fun line => (ps.filter (fun p => p.title == t && p.matchesLine line)).map
          (fun _ => truncateLine line 200))).flatten := by
  suffices h : ∀ (m : String → List String) (ls : List String),
      (ls.foldl (fun m line => if isBlankLine line then m else collectLine ps line m) m) t =
        m t ++ ((ls.filter (fun line => !isBlankLine line)).map
          (fun line => (ps.filter (fun p => p.title == t && p.matchesLine line)).map
            (fun _ => truncateLine line 200))).flatten by
    simpa [collectMatches] using h (fun _ => []) lines
  intro m ls
  induction ls generalizing m with
  | nil => simp
  | cons l rest ih =>
    by_cases hb : isBlankLine l = true
    · simp [List.foldl_cons, hb, ih]
    · have hb' : isBlankLine l = false := by
        cases hq : isBlankLine l
        · rfl
        · exact absurd hq hb
      simp [List.foldl_cons, hb', ih, collectLine_apply, List.append_assoc]

/-- Helper: the first connection-refused entry is in the pattern table. -/
theorem connPattern_mem : connPattern ∈ logPatterns := by
  unfold logPatterns
  exact List.mem_cons_of_mem _ (List.mem_cons_of_mem _ (List.mem_cons_of_mem _
    (List.mem_cons_of_mem _ (List.mem_cons_self _ _))))

/-- Helper: the second connection-refused entry is in the pattern table. -/
theorem econnPattern_mem : econnPattern ∈ logPatterns := by
  unfold logPatterns
  exact List.mem_cons_of_mem _ (List.mem_cons_of_mem _ (List.mem_cons_of_mem _
    (List.mem_cons_of_mem _ (List.mem_cons_of_mem _ (List.mem_cons_self _ _)))))

/-- Helper: a non-blank line matching either connection-refused pattern
makes the "Connection refused" bucket nonempty. -/
theorem collectMatches_connection_ne_nil (lines : List String)
    (h : ∃ line ∈ lines, isBlankLine line = false ∧
      (matchConnectionRefused line = true ∨ matchEconnrefused line = true)) :
    collectMatches logPatterns lines "Connection refused" ≠ [] := by
  obtain ⟨line, hmem, hnb, hmatch⟩ := h
  rw [collectMatches_apply]
  apply List.ne_nil_of_mem (a := truncateLine line 200)
  rw [List.mem_flatten]
  refine ⟨(logPatterns.filter (fun p =>
    p.title == "Connection refused" && p.matchesLine line)).map
      (fun _ => truncateLine line 200), ?_, ?_⟩
  · exact List.mem_map_of_mem _ (List.mem_filter.mpr ⟨hmem, by simp [hnb]⟩)
  · rcases hmatch with hm | hm
    · exact List.mem_map_of_mem _
        (List.mem_filter.mpr ⟨connPattern_mem, by simp [connPattern, hm]⟩)
    · exact List.mem_map_of_mem _
        (List.mem_filter.mpr ⟨econnPattern_mem, by simp [econnPattern, hm]⟩)

/-- Helper: for a fixed container name, the formatted issue title determines
the pattern title. -/
theorem logIssueTitle_inj (c t1 t2 : String) :
    logIssueTitle c t1 = logIssueTitle c t2 ↔ t1 = t2 := by
  constructor
  · intro h
    have hd : ("[" ++ c ++ "] ").data ++ t1.data = ("[" ++ c ++ "] ").data ++ t2.data :=
      congrArg String.data h
    exact String.ext (List.append_cancel_left hd)
  · intro h
    rw [h]

/-- Helper: boolean form of the title injectivity. -/
theorem logIssueTitle_beq (c t1 t2 : String) :
    (logIssueTitle c t1 == logIssueTitle c t2) = (t1 == t2) := by
  by_cases h : t1 = t2
  · subst h
    simp
  · have hne : logIssueTitle c t1 ≠ logIssueTitle c t2 :=
      fun hx => h ((logIssueTitle_inj c t1 t2).mp hx)
    simp [h, hne]

/-- Helper: an emitted issue carries the formatted title of its table
entry. -/
theorem logIssueEmit_title (c : String) (mp : String → List String)
    (p : ErrorPattern) (i : Issue) (h : logIssueEmit c mp p = some i) :
    i.title = logIssueTitle c p.title := by
  unfold logIssueEmit at h
  cases hmp : mp p.title with
  | nil => rw [hmp] at h; cases h
  | cons m rest =>
    rw [hmp] at h
    injection h with h'
    rw [← h']

/-- Helper: table entries with a different title contribute nothing to the
issues filtered on a target title. -/
theorem filterMap_emit_filter_of_no_title (c : String) (mp : String → List String)
    (t : String) (ps : List ErrorPattern) (h : ∀ p ∈ ps, p.title ≠ t) :
    (ps.filterMap (logIssueEmit c mp)).filter
      (fun i => i.title == logIssueTitle c t) = [] := by
  induction ps with
  | nil => rfl
  | cons p rest ih =>
    rw [List.filterMap_cons]
    have hrest := ih (fun q hq => h q (List.mem_cons_of_mem p hq))
    cases he : logIssueEmit c mp p with
    | none => exact hrest
    | some i =>
      rw [List.filter_cons]
      have hti : (i.title == logIssueTitle c t) = false := by
        rw [logIssueEmit_title c mp p i he, logIssueTitle_beq]
        exact beq_eq_false_iff_ne.mpr (h p (List.mem_cons_self p rest))
      simp [hti, hrest]

/-- C9: whenever some non-blank log line matches either connection-refused
pattern, the emission loop returns exactly two issues titled
"[container] Connection refused" — one per table entry with that shared
title — with identical title and identical details. -/
theorem analyzeContainerLogs_duplicate_connection_refused (c logs : String)
    (h : ∃ line ∈ splitLines logs, isBlankLine line = false ∧
      (matchConnectionRefused line = true ∨ matchEconnrefused line = true)) :
    ∃ ms : List String, ms ≠ [] ∧
      (analyzeContainerLogsPure c logs).filter
        (fun i => i.title == logIssueTitle c "Connection refused") =
      [{ severity := SeverityWarning
         category := "logs"
         title := logIssueTitle c "Connection refused"
         description := "Cannot connect to a service"
         details := logIssueDetails c ms },
       { severity := SeverityWarning
         category := "logs"
         title := logIssueTitle c "Connection refused"
         description := "TCP connection refused"
         details := logIssueDetails c ms }] := by
  have hlogs : logs ≠ "" := by
    obtain ⟨line, hmem, hnb, _⟩ := h
    intro hempty
    subst hempty
    have hsp : splitLines "" = [""] := rfl
    rw [hsp] at hmem
    have hline : line = "" := by simpa using hmem
    subst hline
    exact absurd hnb (by decide)
  have hmsne : collectMatches logPatterns (splitLines logs) "Connection refused" ≠ [] :=
    collectMatches_connection_ne_nil _ h
  set mp := collectMatches logPatterns (splitLines logs) with hmpdef
  obtain ⟨m, rest, hms⟩ : ∃ m rest, mp "Connection refused" = m :: rest := by
    cases hq : mp "Connection refused" with
    | nil => exact absurd hq hmsne
    | cons m rest => exact ⟨m, rest, rfl⟩
  refine ⟨m :: rest, List.cons_ne_nil m rest, ?_⟩
  rw [analyzeContainerLogsPure, if_neg hlogs]
  rw [← hmpdef]
  rw [logIssues]
  have hsplit : logPatterns =
      [⟨matchPanic, "Panic detected", "Application panicked", SeverityCritical⟩,
       ⟨matchFatal, "Fatal error", "Fatal error occurred", SeverityCritical⟩,
       ⟨matchOutOfMemory, "Out of memory", "Application ran out of memory", SeverityCritical⟩,
       ⟨matchKilled, "Process killed", "Process was killed", SeverityWarning⟩] ++
      connPattern :: econnPattern ::
      [⟨matchPermissionDenied, "Permission denied", "Insufficient permissions", SeverityWarning⟩,
       ⟨matchAccessDenied, "Access denied", "Access was denied", SeverityWarning⟩,
       ⟨matchNoSuchFile, "File not found", "Required file not found", SeverityWarning⟩,
       ⟨matchTimeout, "Timeout", "Operation timed out", SeverityWarning⟩,
       ⟨matchDeadlineExceeded, "Deadline exceeded", "Operation deadline was exceeded", SeverityWarning⟩,
       ⟨matchCertificate, "Certificate error", "TLS certificate validation failed", SeverityWarning⟩,
       ⟨matchAuthFailed, "Auth failed", "Authentication failed", SeverityWarning⟩,
       ⟨matchUnauthorized, "Unauthorized", "Unauthorized access attempt", SeverityWarning⟩,
       ⟨matchSegfault, "Segfault", "Segmentation fault occurred", SeverityCritical⟩,
       ⟨matchStackOverflow, "Stack overflow", "Stack overflow error", SeverityCritical⟩,
       ⟨matchNullPointer, "Null pointer", "Null pointer exception", SeverityCritical⟩] := rfl
  rw [hsplit, List.filterMap_append, List.filter_append]
  have hfront :
      (([⟨matchPanic, "Panic detected", "Application panicked", SeverityCritical⟩,
         ⟨matchFatal, "Fatal error", "Fatal error occurred", SeverityCritical⟩,
         ⟨matchOutOfMemory, "Out of memory", "Application ran out of memory", SeverityCritical⟩,
         ⟨matchKilled, "Process killed", "Process was killed", SeverityWarning⟩] :
        List ErrorPattern).filterMap (logIssueEmit c mp)).filter
          (fun i => i.title == logIssueTitle c "Connection refused") = [] := by
    apply filterMap_emit_filter_of_no_title
    intro p hp
    simp only [List.mem_cons, List.not_mem_nil, or_false] at hp
    rcases hp with rfl | rfl | rfl | rfl <;> decide
  have hback :
      (([⟨matchPermissionDenied, "Permission denied", "Insufficient permissions", SeverityWarning⟩,
         ⟨matchAccessDenied, "Access denied", "Access was denied", SeverityWarning⟩,
         ⟨matchNoSuchFile, "File not found", "Required file not found", SeverityWarning⟩,
         ⟨matchTimeout, "Timeout", "Operation timed out", SeverityWarning⟩,
         ⟨matchDeadlineExceeded, "Deadline exceeded", "Operation deadline was exceeded", SeverityWarning⟩,
         ⟨matchCertificate, "Certificate error", "TLS certificate validation failed", SeverityWarning⟩,
         ⟨matchAuthFailed, "Auth failed", "Authentication failed", SeverityWarning⟩,
         ⟨matchUnauthorized, "Unauthorized", "Unauthorized access attempt", SeverityWarning⟩,
         ⟨matchSegfault, "Segfault", "Segmentation fault occurred", SeverityCritical⟩,
         ⟨matchStackOverflow, "Stack overflow", "Stack overflow error", SeverityCritical⟩,
         ⟨matchNullPointer, "Null pointer", "Null pointer exception", SeverityCritical⟩] :
        List ErrorPattern).filterMap (logIssueEmit c mp)).filter
          (fun i => i.title == logIssueTitle c "Connection refused") = [] := by
    apply filterMap_emit_filter_of_no_title
    intro p hp
    simp only [List.mem_cons, List.not_mem_nil, or_false] at hp
    rcases hp with rfl | rfl | rfl | rfl | rfl | rfl | rfl | rfl | rfl | rfl | rfl <;> decide
  have hconn : logIssueEmit c mp connPattern =
      some { severity := SeverityWarning
             category := "logs"
             title := logIssueTitle c "Connection refused"
             description := "Cannot connect to a service"
             details := logIssueDetails c (m :: rest) } := by
    unfold logIssueEmit
    have ht : connPattern.title = "Connection refused" := rfl
    rw [ht, hms]
    rfl
  have heconn : logIssueEmit c mp econnPattern =
      some { severity := SeverityWarning
             category := "logs"
             title := logIssueTitle c "Connection refused"
             description := "TCP connection refused"
             details := logIssueDetails c (m :: rest) } := by
    unfold logIssueEmit
    have ht : econnPattern.title = "Connection refused" := rfl
    rw [ht, hms]
    rfl
  rw [hfront, List.nil_append, List.filterMap_cons, hconn, List.filterMap_cons, heconn]
  simp [hback]

/-- C9 (witness): a log consisting of the single line "ECONNREFUSED" yields
exactly two issues with the shared title. -/
theorem analyzeContainerLogs_duplicate_connection_refused_witness :
    ((analyzeContainerLogsPure "app" "ECONNREFUSED").filter
      (fun i => i.title == logIssueTitle "app" "Connection refused")).length = 2 := by
  obtain ⟨ms, _, heq⟩ := analyzeContainerLogs_duplicate_connection_refused "app" "ECONNREFUSED"
    ⟨"ECONNREFUSED", by decide, by decide, Or.inr (by decide)⟩
  rw [heq]
  rfl
